import Mathlib

/-!
Shallow embedding of `src/daily_briefing_emailer.py`.

The script manipulates dynamically-typed Python/JSON data: dictionaries,
lists, strings, numbers and `None`.  `PyVal` models those values; Python
dictionaries are association lists in insertion order, as CPython
guarantees.  Each outbound HTTP call is modelled by a `FetchOutcome`
supplied by the environment: either the client raised before a response
existed (`exn`, covering network errors), or a response arrived with a
status code and a body.  The body is an `Except String PyVal`: `.error m`
models a `response.json()` call that raises with message `m` (malformed
body), `.ok v` the parsed JSON value.  Field extraction (`data["main"]`,
`data["weather"][0]`, ...) is embedded by fallible accessors mirroring
Python `KeyError` / `IndexError` / `TypeError` behaviour, and the
`try/except` blocks of the script become matches on the resulting
`Except` values.
-/

set_option maxRecDepth 4000

namespace DailyBriefing

/-- Dynamically typed values (JSON / Python data). `nil` is Python `None`. -/
inductive PyVal : Type where
  | str (s : String)
  | num (q : Rat)
  | arr (xs : List PyVal)
  | obj (fields : List (String × PyVal))
  | nil

/-- Outcome of one `client.get(url)` call together with the response body.
`exn m` : the call itself raised (network error etc.) with message `m`.
`resp status body` : a response with the given status code; `body` is the
result of `response.json()` (`.error m` if JSON decoding raises). -/
inductive FetchOutcome : Type where
  | resp (status : Nat) (body : Except String PyVal)
  | exn (msg : String)

/-- `httpx` `response.raise_for_status()` raises unless the status is 2xx;
`str2xx` is the condition under which it does NOT raise. -/
def str2xx (s : Nat) : Bool := decide (200 ≤ s) && decide (s < 300)

/-- Python dict lookup on an association list (first binding wins). -/
def dlookup (k : String) : List (String × PyVal) → Option PyVal
  | [] => none
  | p :: rest => if p.1 = k then some p.2 else dlookup k rest

/-- Python dict assignment `d[k] = v`: replace the binding if the key is
present, otherwise append it (CPython insertion-order semantics). -/
def dictInsert (k : String) (v : PyVal) : List (String × PyVal) → List (String × PyVal)
  | [] => [(k, v)]
  | p :: rest => if p.1 = k then (k, v) :: rest else p :: dictInsert k v rest

/-- `value[k]` for a string key, as Python evaluates it: dict lookup with
`KeyError` on a missing key, `TypeError` on non-subscriptable values. -/
def PyVal.getKey : PyVal → String → Except String PyVal
  | .obj fs, k =>
      match dlookup k fs with
      | some v => .ok v
      | none => .error ("KeyError: " ++ k)
  | _, k => .error ("TypeError: value is not subscriptable by key " ++ k)

/-- `value[i]` for a numeric index: list indexing with `IndexError` out of
range, `KeyError` for a JSON object (string keys only), `TypeError`
otherwise.  String indexing yields a one-character string as in Python. -/
def PyVal.getIdx : PyVal → Nat → Except String PyVal
  | .arr xs, i =>
      match xs.get? i with
      | some v => .ok v
      | none => .error "IndexError: list index out of range"
  | .str s, i =>
      match s.data.get? i with
      | some c => .ok (.str (String.singleton c))
      | none => .error "IndexError: string index out of range"
  | .obj _, _ => .error "KeyError: integer key"
  | _, _ => .error "TypeError: value is not subscriptable"

/-- The configured city list (`CITIES` in the source). -/
def CITIES : List String := ["Casablanca", "Paris", "New York"]

/-- The hard-coded recipient constant (`RECEIVER_EMAIL` in the source). -/
def RECEIVER_EMAIL : String := "RECEIVER_EMAIL"

/-- The body of the weather `try` block after `raise_for_status`:
`data = response.json()`, then `data["main"]["temp"]`,
`data["weather"][0]["description"]`, `data["weather"][0]["icon"]`, in
Python evaluation order (first raised error wins). -/
def extractWeather (body : Except String PyVal) : Except String (PyVal × PyVal × PyVal) := do
  let data ← body
  let temp ← (← data.getKey "main").getKey "temp"
  let desc ← (← (← data.getKey "weather").getIdx 0).getKey "description"
  let icon ← (← (← data.getKey "weather").getIdx 0).getKey "icon"
  pure (temp, desc, icon)

/-- One iteration of the `for city in CITIES` loop of `get_weather_data`:
the record stored in `weather_data[city]`, determined by the outcome of
that city's HTTP call alone. -/
def weatherForCity (o : FetchOutcome) : PyVal :=
  match o with
  | .exn m => .obj [("error", .str ("An error occurred: " ++ m))]
  | .resp status body =>
      if str2xx status then
        match extractWeather body with
        | .ok (t, d, i) => .obj [("temp", t), ("description", d), ("icon", i)]
        | .error m => .obj [("error", .str ("An error occurred: " ++ m))]
      else .obj [("error", .str ("Could not retrieve weather: " ++ toString status))]

/-- The `for city in cities` loop, threading the `weather_data` dict. -/
def weatherLoop (fetch : String → FetchOutcome) : List String → List (String × PyVal) → List (String × PyVal)
  | [], acc => acc
  | city :: rest, acc => weatherLoop fetch rest (dictInsert city (weatherForCity (fetch city)) acc)

/-- `get_weather_data`, parametrised by the per-city HTTP outcome. -/
def get_weather_data (cities : List String) (fetch : String → FetchOutcome) : List (String × PyVal) :=
  weatherLoop fetch cities []

/-- The body of the news `try` block after `raise_for_status`:
`response.json()["articles"]`. -/
def extractNews (body : Except String PyVal) : Except String PyVal := do
  let data ← body
  data.getKey "articles"

/-- `get_news_headlines`, parametrised by the HTTP outcome.  On a 2xx
response the `articles` value is returned verbatim; each failure mode is
collapsed to the one-element sentinel list of the source. -/
def get_news_headlines (o : FetchOutcome) : PyVal :=
  match o with
  | .exn m =>
      .arr [.obj [("title", .str "Error fetching news"),
                  ("description", .str ("An error occurred: " ++ m))]]
  | .resp status body =>
      if str2xx status then
        match extractNews body with
        | .ok v => v
        | .error m =>
            .arr [.obj [("title", .str "Error fetching news"),
                        ("description", .str ("An error occurred: " ++ m))]]
      else
        .arr [.obj [("title", .str "Error fetching news"),
                    ("description", .str ("Could not retrieve news: " ++ toString status))]]

/-- Python truthiness of an optional string: `None` and `""` are falsy.
`WORDNIK_API_KEY` is `os.getenv(...)`, so it is `None` when unset. -/
def pyTruthyOpt : Option String → Bool
  | none => false
  | some s => !s.isEmpty

/-- The body of the word-of-the-day `try` block after `raise_for_status`:
`data["word"]` and `data["definitions"][0]["text"]`. -/
def extractWord (body : Except String PyVal) : Except String (PyVal × PyVal) := do
  let data ← body
  let w ← data.getKey "word"
  let t ← (← (← data.getKey "definitions").getIdx 0).getKey "text"
  pure (w, t)

/-- `get_word_of_the_day`, parametrised by the credential and the HTTP
outcome.  The `if not WORDNIK_API_KEY` shortcut returns before any
network interaction, so the result ignores `o` in that case. -/
def get_word_of_the_day (key : Option String) (o : FetchOutcome) : PyVal :=
  if !(pyTruthyOpt key) then
    .obj [("word", .str "N/A"), ("definition", .str "WORDNIK_API_KEY not set.")]
  else
    match o with
    | .exn m => .obj [("word", .str "Error"), ("definition", .str ("An error occurred: " ++ m))]
    | .resp status body =>
        if str2xx status then
          match extractWord body with
          | .ok (w, t) => .obj [("word", w), ("definition", t)]
          | .error m => .obj [("word", .str "Error"), ("definition", .str ("An error occurred: " ++ m))]
        else
          .obj [("word", .str "Error"),
                ("definition", .str ("Could not retrieve word of the day: " ++ toString status))]

/-! ### Renderer (`create_email_body`) -/

/-- `str(v)` as interpolated by an f-string.  Strings interpolate as
themselves, numbers by their decimal text, `None` as `"None"`.  The
rendering of whole containers (never interpolated by the script on any
well-shaped input) is abstracted to a fixed placeholder. -/
def pyStr : PyVal → String
  | .str s => s
  | .num q => toString q
  | .nil => "None"
  | .arr _ => "<list>"
  | .obj _ => "<dict>"

/-- Auxiliary for `pyTitle`: the boolean records whether the previous
character was alphabetic (cased). -/
def pyTitleAux : Bool → List Char → List Char
  | _, [] => []
  | prev, c :: cs =>
      if c.isAlpha then
        (if prev then c.toLower else c.toUpper) :: pyTitleAux true cs
      else c :: pyTitleAux false cs

/-- Python `str.title()` (ASCII casing): the first letter of each
alphabetic run is upper-cased, the rest lower-cased. -/
def pyTitle (s : String) : String := ⟨pyTitleAux false s.data⟩

/-- `value.title()`: only strings have the `title` attribute; any other
value raises `AttributeError`. -/
def pyvalTitle : PyVal → Except String String
  | .str s => .ok (pyTitle s)
  | _ => .error "AttributeError: object has no attribute title"

/-- `k == v` as evaluated by Python `in` over a list: true only for an
equal string. -/
def isStrEq (v : PyVal) (k : String) : Bool :=
  match v with
  | .str s => s == k
  | _ => false

/-- Does `sub` start `l`? -/
def strStarts : List Char → List Char → Bool
  | [], _ => true
  | _ :: _, [] => false
  | a :: as, b :: bs => a == b && strStarts as bs

/-- Does `sub` occur contiguously inside `l`? -/
def listContainsSeg (sub : List Char) : List Char → Bool
  | [] => strStarts sub []
  | c :: cs => strStarts sub (c :: cs) || listContainsSeg sub cs

/-- Python `sub in s` on strings: substring containment. -/
def strContains (s sub : String) : Bool := listContainsSeg sub.data s.data

/-- Python `k in v`: key membership for a dict, element equality for a
list, substring for a string, `TypeError` otherwise. -/
def pyIn (k : String) : PyVal → Except String Bool
  | .obj fs => .ok (dlookup k fs).isSome
  | .arr xs => .ok (xs.any (fun v => isStrEq v k))
  | .str s => .ok (strContains s k)
  | _ => .error "TypeError: argument of the membership test is not iterable"

/-- Python `v.get(k, d)`: only dicts have `get`. -/
def pyGetD (v : PyVal) (k : String) (d : PyVal) : Except String PyVal :=
  match v with
  | .obj fs => .ok ((dlookup k fs).getD d)
  | _ => .error "AttributeError: object has no attribute get"

/-- Python `v.items()`: only dicts have `items`. -/
def pyItems : PyVal → Except String (List (String × PyVal))
  | .obj fs => .ok fs
  | _ => .error "AttributeError: object has no attribute items"

/-- Python iteration `for x in v`: lists yield their elements, strings
their one-character substrings, dicts their keys; numbers and `None`
raise `TypeError`. -/
def pyIter : PyVal → Except String (List PyVal)
  | .arr xs => .ok xs
  | .str s => .ok (s.data.map (fun c => .str (String.singleton c)))
  | .obj fs => .ok (fs.map (fun p => .str p.1))
  | _ => .error "TypeError: object is not iterable"

/-- A Python list comprehension `[f x for x in xs]` under exceptions:
evaluated left to right, aborting on the first raised error. -/
def mapME (f : α → Except String String) : List α → Except String (List String)
  | [] => .ok []
  | x :: xs => do
      let b ← f x
      let bs ← mapME f xs
      pure (b :: bs)

/-- The error branch of the inner `get_weather_html` helper. -/
def weatherErrHtml (city_name err : String) : String :=
  "\n                <div class=\"weather-city\">\n                    <h3>" ++ city_name ++
  "</h3>\n                    <p><i>" ++ err ++
  "</i></p>\n                </div>\n            "

/-- The success branch of the inner `get_weather_html` helper (the source
literally contains the mojibake sequence before the Celsius sign). -/
def weatherOkHtml (city_name icon temp desc : String) : String :=
  "\n            <div class=\"weather-city\">\n                <h3>" ++ city_name ++
  "</h3>\n                <img src=\"http://openweathermap.org/img/wn/" ++ icon ++
  "@2x.png\" alt=\"Weather icon\">\n                <p>" ++ temp ++
  "\xC2\xB0C, " ++ desc ++ "</p>\n            </div>\n        "

/-- The inner helper `get_weather_html(city_name, data)`: discriminates on
`if "error" in data`, then reads `data["error"]`, or `data["icon"]`,
`data["temp"]`, `data["description"].title()` in f-string order. -/
def get_weather_html (city_name : String) (data : PyVal) : Except String String := do
  let hasErr ← pyIn "error" data
  if hasErr then
    let e ← data.getKey "error"
    pure (weatherErrHtml city_name (pyStr e))
  else
    let icon ← data.getKey "icon"
    let temp ← data.getKey "temp"
    let desc ← data.getKey "description"
    let descT ← pyvalTitle desc
    pure (weatherOkHtml city_name (pyStr icon) (pyStr temp) descT)

/-- The template of the inner `get_news_html` helper. -/
def newsItemHtml (url title desc : String) : String :=
  "\n            <div class=\"news-item\">\n                <h4><a href=\"" ++ url ++
  "\">" ++ title ++ "</a></h4>\n                <p>" ++ desc ++
  "</p>\n            </div>\n        "

/-- The inner helper `get_news_html(article)`: `article.get` with the
source defaults for `url`, `title` and `description`. -/
def get_news_html (article : PyVal) : Except String String := do
  let url ← pyGetD article "url" (.str "#")
  let title ← pyGetD article "title" (.str "N/A")
  let desc ← pyGetD article "description" (.str "No description available.")
  pure (newsItemHtml (pyStr url) (pyStr title) (pyStr desc))

/-- The outer HTML template of `create_email_body` (literal CSS braces of
the source written as their character codes). -/
def emailHtml (dateStr weatherHtml newsHtml word defText : String) : String :=
  "\n    <html>\n    <head>\n        <style>\n            body \x7b font-family: Arial, sans-serif; margin: 0; padding: 20px; background-color: #f4f4f4; \x7d\n            .container \x7b background-color: #ffffff; padding: 20px; border-radius: 8px; max-width: 600px; margin: auto; \x7d\n            .header \x7b color: #333; text-align: center; border-bottom: 2px solid #eee; padding-bottom: 10px; \x7d\n            .section \x7b margin-top: 20px; \x7d\n            .section h2 \x7b color: #555; \x7d\n            .weather-container \x7b display: flex; justify-content: space-around; text-align: center; \x7d\n            .weather-city img \x7b width: 50px; height: 50px; \x7d\n            .news-item \x7b border-bottom: 1px solid #eee; padding-bottom: 10px; margin-bottom: 10px; \x7d\n            .news-item:last-child \x7b border-bottom: none; \x7d\n            .footer \x7b text-align: center; margin-top: 20px; font-size: 0.8em; color: #888; \x7d\n        </style>\n    </head>\n    <body>\n        <div class=\"container\">\n            <div class=\"header\">\n                <h1>Daily Briefing</h1>\n                <p>" ++ dateStr ++
  "</p>\n            </div>\n\n            <div class=\"section\">\n                <h2>Weather Forecast</h2>\n                <div class=\"weather-container\">\n                    " ++ weatherHtml ++
  "\n                </div>\n            </div>\n\n            <div class=\"section\">\n                <h2>Top Tech Headlines</h2>\n                " ++ newsHtml ++
  "\n            </div>\n\n            <div class=\"section\">\n                <h2>Word of the Day</h2>\n                <h3>" ++ word ++
  "</h3>\n                <p>" ++ defText ++
  "</p>\n            </div>\n\n            <div class=\"footer\">\n                <p>This email was generated automatically.</p>\n            </div>\n        </div>\n    </body>\n    </html>\n    "

/-- `create_email_body(weather_data, news_articles, word_of_the_day)`.
`dateStr` stands for `datetime.now().strftime(...)`.  Evaluation follows
the f-string order of the source: the weather comprehension over
`weather_data.items()`, the news comprehension, then the word-of-the-day
`get` / `title` chain; the first raised exception aborts the call. -/
def create_email_body (dateStr : String) (weather_data news_articles word_of_the_day : PyVal) :
    Except String String := do
  let witems ← pyItems weather_data
  let whtml ← mapME (fun p => get_weather_html p.1 p.2) witems
  let narts ← pyIter news_articles
  let nhtml ← mapME get_news_html narts
  let wordV ← pyGetD word_of_the_day "word" (.str "N/A")
  let wordT ← pyvalTitle wordV
  let defV ← pyGetD word_of_the_day "definition" (.str "N/A")
  pure (emailHtml dateStr (String.join whtml) (String.join nhtml) wordT (pyStr defV))

/-! ### Delivery (`send_email`) -/

/-- Outcome of the SMTP session attempted inside `send_email`. -/
inductive SmtpOutcome : Type where
  | sent
  | authFailure
  | otherFailure (msg : String)

/-- `send_email(html_content)`, parametrised by the three credential
values and the SMTP outcome; the result is the list of lines printed.
`if not all([SENDER_EMAIL, SENDER_PASSWORD, RECEIVER_EMAIL])` skips the
whole SMTP block when any of the three is falsy. -/
def send_email (sender password receiver : Option String) (smtp : SmtpOutcome) : List String :=
  if !(pyTruthyOpt sender && pyTruthyOpt password && pyTruthyOpt receiver) then
    ["Email credentials not set. Skipping email delivery."]
  else
    match smtp with
    | .sent => ["Email sent successfully!"]
    | .authFailure => ["Error: SMTP authentication failed. Check your email/password or app password."]
    | .otherFailure m => ["An error occurred while sending the email: " ++ m]

/-! ### Result shapes and instrumentation -/

/-- A `CityWeather` record as the source constructs it: either exactly the
Failure dict `{"error": <string>}` or exactly the Success dict
`{"temp": _, "description": _, "icon": _}` (keyed shape). -/
def weatherRecShaped : PyVal → Bool
  | .obj [("error", .str _)] => true
  | .obj [("temp", _), ("description", _), ("icon", _)] => true
  | _ => false

/-- A `NewsArticle`-shaped record: a dict carrying at least the `title`
and `description` keys (`url` optional). -/
def newsArticleShaped : PyVal → Bool
  | .obj fs => (dlookup "title" fs).isSome && (dlookup "description" fs).isSome
  | _ => false

/-- The declared result shape of `get_news_headlines`: a list of
`NewsArticle`-shaped records. -/
def newsShaped : PyVal → Bool
  | .arr xs => xs.all newsArticleShaped
  | _ => false

/-- A `WordOfDay`-shaped record: exactly the keys `word`, `definition`. -/
def wordShaped : PyVal → Bool
  | .obj [("word", _), ("definition", _)] => true
  | _ => false

/-- Is the optional value a number? -/
def isNumV : Option PyVal → Bool
  | some (.num _) => true
  | _ => false

/-- Is the optional value a string? -/
def isStrV : Option PyVal → Bool
  | some (.str _) => true
  | _ => false

/-- A weather record admissible for the Renderer: Failure-shaped (the
`error` key is present) or Success-shaped with the data-model field types
(`temperature: float`, `description: string`, `icon: string`). -/
def weatherRecTyped : PyVal → Bool
  | .obj fs =>
      (dlookup "error" fs).isSome ||
        (isNumV (dlookup "temp" fs) && isStrV (dlookup "description" fs) &&
          isStrV (dlookup "icon" fs))
  | _ => false

/-- Is the value a dict (a record)? -/
def isObjB : PyVal → Bool
  | .obj _ => true
  | _ => false

/-- A `WordOfDay` record admissible for the Renderer: a dict whose `word`
field, when present, is a string (the data-model type of `word`). -/
def wordTyped : PyVal → Bool
  | .obj fs =>
      match dlookup "word" fs with
      | none => true
      | some (.str _) => true
      | some _ => false
  | _ => false

/-- Did the computation return normally? -/
def exOk {β : Type} : Except String β → Bool
  | .ok _ => true
  | .error _ => false

/-- Number of entries of the weather dict stored under key `k`. -/
def countKey (k : String) (l : List (String × PyVal)) : Nat :=
  l.countP (fun p => decide (p.1 = k))

/-- The keys of an association list are pairwise distinct. -/
def NodupKeys (l : List (String × PyVal)) : Prop := (l.map Prod.fst).Nodup

/-- Length of a Python value under `len`. -/
def pyLen : PyVal → Nat
  | .arr xs => xs.length
  | .obj fs => fs.length
  | .str s => s.length
  | _ => 0

/-! ### Concrete stub environments used in scenario instantiations -/

/-- Stub weather provider of the round-trip scenario: a 200 response for
Paris with `temp 21.5`, `description "clear sky"`, `icon "01d"`; the
other cities fail with a connection error. -/
def parisStub : String → FetchOutcome :=
  fun city =>
    if city = "Paris" then
      .resp 200 (.ok (.obj
        [("main", .obj [("temp", .num (21.5 : Rat))]),
         ("weather", .arr [.obj [("description", .str "clear sky"), ("icon", .str "01d")]])]))
    else .exn "connection refused"

/-- Stub weather provider where Paris gets HTTP 404 and the other cities
get empty 200 bodies (whose field extraction then fails). -/
def city404Stub : String → FetchOutcome :=
  fun city => if city = "Paris" then .resp 404 (.ok .nil) else .resp 200 (.ok (.obj []))

/-- A stub news response body carrying two well-formed articles (the
second without a `url`). -/
def newsStubArticles : List PyVal :=
  [.obj [("title", .str "t1"), ("description", .str "d1"), ("url", .str "u1")],
   .obj [("title", .str "t2"), ("description", .str "d2")]]

/-- A 200 news response whose body holds `newsStubArticles`. -/
def newsStubOutcome : FetchOutcome :=
  .resp 200 (.ok (.obj [("articles", .arr newsStubArticles)]))

/-! ### Dictionary lemmas -/

theorem dlookup_dictInsert_self (k : String) (v : PyVal) (l : List (String × PyVal)) :
    dlookup k (dictInsert k v l) = some v := by
  induction l with
  | nil => simp [dictInsert, dlookup]
  | cons p rest ih =>
      by_cases h : p.1 = k
      · simp [dictInsert, h, dlookup]
      · simp [dictInsert, h, dlookup, ih]

theorem dlookup_dictInsert_ne (k k' : String) (v : PyVal) (l : List (String × PyVal))
    (h : k' ≠ k) : dlookup k' (dictInsert k v l) = dlookup k' l := by
  induction l with
  | nil => simp [dictInsert, dlookup, Ne.symm h]
  | cons p rest ih =>
      by_cases hp : p.1 = k
      · simp [dictInsert, hp, dlookup, Ne.symm h]
      · simp [dictInsert, hp, dlookup, ih]

theorem mem_dictInsert (p : String × PyVal) (k : String) (v : PyVal)
    (l : List (String × PyVal)) (h : p ∈ dictInsert k v l) : p = (k, v) ∨ p ∈ l := by
  induction l with
  | nil => simpa [dictInsert] using h
  | cons q rest ih =>
      by_cases hq : q.1 = k
      · rw [dictInsert, if_pos hq] at h
        rcases List.mem_cons.mp h with h1 | h1
        · exact Or.inl h1
        · exact Or.inr (List.mem_cons_of_mem _ h1)
      · rw [dictInsert, if_neg hq] at h
        rcases List.mem_cons.mp h with h1 | h1
        · exact Or.inr (h1 ▸ List.mem_cons_self _ _)
        · rcases ih h1 with h2 | h2
          · exact Or.inl h2
          · exact Or.inr (List.mem_cons_of_mem _ h2)

theorem mem_keys_dictInsert (x k : String) (v : PyVal) (l : List (String × PyVal))
    (h : x ∈ (dictInsert k v l).map Prod.fst) : x = k ∨ x ∈ l.map Prod.fst := by
  rcases List.mem_map.mp h with ⟨p, hp, hx⟩
  rcases mem_dictInsert p k v l hp with h1 | h1
  · left; rw [← hx, h1]
  · right; exact hx ▸ List.mem_map_of_mem _ h1

theorem nodupKeys_dictInsert (k : String) (v : PyVal) (l : List (String × PyVal))
    (h : NodupKeys l) : NodupKeys (dictInsert k v l) := by
  induction l with
  | nil => simp [NodupKeys, dictInsert]
  | cons q rest ih =>
      rw [NodupKeys, List.map_cons, List.nodup_cons] at h
      by_cases hq : q.1 = k
      · rw [dictInsert, if_pos hq, NodupKeys, List.map_cons, List.nodup_cons]
        exact ⟨hq ▸ h.1, h.2⟩
      · rw [dictInsert, if_neg hq, NodupKeys, List.map_cons, List.nodup_cons]
        refine ⟨?_, ih h.2⟩
        intro hmem
        rcases mem_keys_dictInsert _ _ _ _ hmem with h1 | h1
        · exact hq h1
        · exact h.1 h1

theorem countKey_eq_zero (k : String) (l : List (String × PyVal))
    (h : k ∉ l.map Prod.fst) : countKey k l = 0 := by
  induction l with
  | nil => rfl
  | cons q rest ih =>
      rw [List.map_cons, List.mem_cons, not_or] at h
      rw [countKey, List.countP_cons]
      have hq : decide (q.1 = k) = false := by
        simp only [decide_eq_false_iff_not]
        exact fun hh => h.1 hh.symm
      rw [hq, if_neg (by simp)]
      simpa [countKey] using ih h.2

theorem countKey_of_nodup (k : String) (l : List (String × PyVal)) (h : NodupKeys l) :
    countKey k l = if (dlookup k l).isSome then 1 else 0 := by
  induction l with
  | nil => rfl
  | cons q rest ih =>
      rw [NodupKeys, List.map_cons, List.nodup_cons] at h
      rw [countKey, List.countP_cons]
      by_cases hq : q.1 = k
      · have h0 : List.countP (fun p => decide (p.1 = k)) rest = 0 := by
          have h1 := countKey_eq_zero k rest (hq ▸ h.1)
          rw [countKey] at h1
          exact h1
        simp [dlookup, hq, h0]
      · rw [dlookup, if_neg hq]
        have h1 := ih h.2
        rw [countKey] at h1
        simpa [hq] using h1

/-! ### Lemmas about the weather retrieval loop -/

theorem weatherLoop_dlookup_not_mem (fetch : String → FetchOutcome) (cities : List String)
    (acc : List (String × PyVal)) (k : String) (h : k ∉ cities) :
    dlookup k (weatherLoop fetch cities acc) = dlookup k acc := by
  induction cities generalizing acc with
  | nil => rfl
  | cons c rest ih =>
      rw [List.mem_cons, not_or] at h
      rw [weatherLoop, ih _ h.2]
      exact dlookup_dictInsert_ne c k _ acc h.1

theorem weatherLoop_dlookup_mem (fetch : String → FetchOutcome) (cities : List String)
    (acc : List (String × PyVal)) (k : String) (h : k ∈ cities) :
    dlookup k (weatherLoop fetch cities acc) = some (weatherForCity (fetch k)) := by
  induction cities generalizing acc with
  | nil => cases h
  | cons c rest ih =>
      by_cases hr : k ∈ rest
      · rw [weatherLoop]; exact ih _ hr
      · have hk : k = c := by
          rcases List.mem_cons.mp h with h1 | h1
          · exact h1
          · exact absurd h1 hr
        subst hk
        rw [weatherLoop, weatherLoop_dlookup_not_mem fetch rest _ k hr]
        exact dlookup_dictInsert_self k _ acc

theorem weatherLoop_nodup (fetch : String → FetchOutcome) (cities : List String)
    (acc : List (String × PyVal)) (h : NodupKeys acc) :
    NodupKeys (weatherLoop fetch cities acc) := by
  induction cities generalizing acc with
  | nil => exact h
  | cons c rest ih => rw [weatherLoop]; exact ih _ (nodupKeys_dictInsert c _ acc h)

theorem weatherLoop_mem (fetch : String → FetchOutcome) (cities : List String)
    (acc : List (String × PyVal)) (p : String × PyVal)
    (h : p ∈ weatherLoop fetch cities acc) :
    p ∈ acc ∨ (p.1 ∈ cities ∧ p.2 = weatherForCity (fetch p.1)) := by
  induction cities generalizing acc with
  | nil => exact Or.inl h
  | cons c rest ih =>
      rw [weatherLoop] at h
      rcases ih _ h with h1 | h1
      · rcases mem_dictInsert p c _ acc h1 with h2 | h2
        · subst h2
          exact Or.inr ⟨List.mem_cons_self _ _, rfl⟩
        · exact Or.inl h2
      · exact Or.inr ⟨List.mem_cons_of_mem _ h1.1, h1.2⟩

/-! ### Shape and string lemmas -/

theorem weatherForCity_shaped (o : FetchOutcome) :
    weatherRecShaped (weatherForCity o) = true := by
  cases o with
  | exn m => rfl
  | resp s b =>
      cases hs : str2xx s with
      | true =>
          cases hx : extractWeather b with
          | ok v =>
              obtain ⟨t, di⟩ := v
              obtain ⟨d, i⟩ := di
              simp [weatherForCity, hs, hx, weatherRecShaped]
          | error m => simp [weatherForCity, hs, hx, weatherRecShaped]
      | false => simp [weatherForCity, hs, weatherRecShaped]

theorem strStarts_self (l : List Char) : strStarts l l = true := by
  induction l with
  | nil => rfl
  | cons c cs ih => simp [strStarts, ih]

theorem listContainsSeg_append (sub pre : List Char) :
    listContainsSeg sub (pre ++ sub) = true := by
  induction pre with
  | nil =>
      cases sub with
      | nil => rfl
      | cons c cs => simp [listContainsSeg, strStarts_self]
  | cons c cs ih => simp [listContainsSeg, ih]

theorem strContains_append (a m : String) : strContains (a ++ m) m = true := by
  have hd : (a ++ m).data = a.data ++ m.data := by
    cases a; cases m; rfl
  rw [strContains, hd]
  exact listContainsSeg_append m.data a.data

/-! ### Renderer totality lemmas -/

theorem exBind_ok {β γ : Type} (a : β) (f : β → Except String γ) :
    (Except.ok a >>= f) = f a := rfl

theorem exBind_error {β γ : Type} (e : String) (f : β → Except String γ) :
    ((Except.error e : Except String β) >>= f) = Except.error e := rfl

theorem exMap_ok {β γ : Type} (f : β → γ) (a : β) :
    (f <$> (Except.ok a : Except String β)) = Except.ok (f a) := rfl

theorem exMap_error {β γ : Type} (f : β → γ) (e : String) :
    (f <$> (Except.error e : Except String β)) = Except.error e := rfl

theorem exOk_eq_true {β : Type} (e : Except String β) (h : exOk e = true) :
    ∃ a, e = .ok a := by
  cases e with
  | ok a => exact ⟨a, rfl⟩
  | error m => simp [exOk] at h

theorem isNumV_eq (o : Option PyVal) (h : isNumV o = true) : ∃ q, o = some (.num q) := by
  cases o with
  | none => simp [isNumV] at h
  | some v =>
      cases v with
      | num q => exact ⟨q, rfl⟩
      | str s => simp [isNumV] at h
      | arr xs => simp [isNumV] at h
      | obj fs => simp [isNumV] at h
      | nil => simp [isNumV] at h

theorem isStrV_eq (o : Option PyVal) (h : isStrV o = true) : ∃ s, o = some (.str s) := by
  cases o with
  | none => simp [isStrV] at h
  | some v =>
      cases v with
      | str s => exact ⟨s, rfl⟩
      | num q => simp [isStrV] at h
      | arr xs => simp [isStrV] at h
      | obj fs => simp [isStrV] at h
      | nil => simp [isStrV] at h

theorem mapME_ok {α : Type} (f : α → Except String String) (xs : List α)
    (h : ∀ x ∈ xs, exOk (f x) = true) : exOk (mapME f xs) = true := by
  induction xs with
  | nil => rfl
  | cons x rest ih =>
      obtain ⟨b, hb⟩ := exOk_eq_true (f x) (h x (List.mem_cons_self _ _))
      obtain ⟨bs, hbs⟩ := exOk_eq_true _ (ih (fun y hy => h y (List.mem_cons_of_mem _ hy)))
      simp [mapME, hb, hbs, exOk, exBind_ok]

theorem get_weather_html_err (city : String) (fs : List (String × PyVal)) (v : PyVal)
    (h : dlookup "error" fs = some v) :
    get_weather_html city (.obj fs) = .ok (weatherErrHtml city (pyStr v)) := by
  simp [get_weather_html, pyIn, h, PyVal.getKey, exBind_ok]

theorem get_weather_html_ok (city : String) (r : PyVal) (h : weatherRecTyped r = true) :
    exOk (get_weather_html city r) = true := by
  cases r with
  | str s => simp [weatherRecTyped] at h
  | num q => simp [weatherRecTyped] at h
  | arr xs => simp [weatherRecTyped] at h
  | nil => simp [weatherRecTyped] at h
  | obj fs =>
      rw [weatherRecTyped] at h
      cases he : dlookup "error" fs with
      | some v => rw [get_weather_html_err city fs v he]; rfl
      | none =>
          rw [he] at h
          simp only [Option.isSome_none, Bool.false_or, Bool.and_eq_true] at h
          obtain ⟨⟨h1, h2⟩, h3⟩ := h
          obtain ⟨q, hq⟩ := isNumV_eq _ h1
          obtain ⟨ds, hd⟩ := isStrV_eq _ h2
          obtain ⟨is, hi⟩ := isStrV_eq _ h3
          simp [get_weather_html, pyIn, he, PyVal.getKey, hq, hd, hi, pyvalTitle, exOk,
            exBind_ok, exMap_ok]

theorem get_news_html_ok (a : PyVal) (h : isObjB a = true) :
    exOk (get_news_html a) = true := by
  cases a with
  | obj fs => rfl
  | str s => simp [isObjB] at h
  | num q => simp [isObjB] at h
  | arr xs => simp [isObjB] at h
  | nil => simp [isObjB] at h

theorem create_email_body_ok (dateStr : String) (wfs : List (String × PyVal))
    (narts : List PyVal) (wod : PyVal)
    (hw : ∀ p ∈ wfs, weatherRecTyped p.2 = true)
    (hn : ∀ a ∈ narts, isObjB a = true)
    (hwod : wordTyped wod = true) :
    exOk (create_email_body dateStr (.obj wfs) (.arr narts) wod) = true := by
  obtain ⟨whtml, hwh⟩ :=
    exOk_eq_true _ (mapME_ok (fun p => get_weather_html p.1 p.2) wfs
      (fun p hp => get_weather_html_ok p.1 p.2 (hw p hp)))
  obtain ⟨nhtml, hnh⟩ :=
    exOk_eq_true _ (mapME_ok get_news_html narts (fun a ha => get_news_html_ok a (hn a ha)))
  cases wod with
  | str s => simp [wordTyped] at hwod
  | num q => simp [wordTyped] at hwod
  | arr xs => simp [wordTyped] at hwod
  | nil => simp [wordTyped] at hwod
  | obj gfs =>
      rw [wordTyped] at hwod
      cases hwv : dlookup "word" gfs with
      | none =>
          simp [create_email_body, pyItems, pyIter, hwh, hnh, pyGetD, hwv, pyvalTitle, exOk,
            exBind_ok, exMap_ok]
      | some v =>
          rw [hwv] at hwod
          cases v with
          | str s =>
              simp [create_email_body, pyItems, pyIter, hwh, hnh, pyGetD, hwv, pyvalTitle, exOk,
                exBind_ok, exMap_ok]
          | num q => simp at hwod
          | arr xs => simp at hwod
          | obj ofs => simp at hwod
          | nil => simp at hwod

theorem create_email_body_word_default (d : String) (w n : PyVal) :
    create_email_body d w n (.obj [])
      = create_email_body d w n
          (.obj [("word", .str "N/A"), ("definition", .str "N/A")]) := by
  cases hw : pyItems w with
  | error e => simp [create_email_body, hw, exBind_ok, exBind_error]
  | ok fs =>
      cases hm : mapME (fun p => get_weather_html p.1 p.2) fs with
      | error e => simp [create_email_body, hw, hm, exBind_ok, exBind_error]
      | ok whtml =>
          cases hni : pyIter n with
          | error e => simp [create_email_body, hw, hm, hni, exBind_ok, exBind_error]
          | ok narts =>
              cases hnm : mapME get_news_html narts with
              | error e => simp [create_email_body, hw, hm, hni, hnm, exBind_ok, exBind_error]
              | ok nhtml =>
                  simp [create_email_body, hw, hm, hni, hnm, pyGetD, dlookup, pyvalTitle,
                    exBind_ok, exMap_ok]

/-! ### Claim theorems -/

/-- Claim C2: for every configured city list and every combination of
per-city HTTP outcomes, the weather mapping of `get_weather_data` holds
exactly one entry per configured city (the entry is present, with
multiplicity one, and is determined by that city's outcome alone), holds
no entry under any other key, and every stored record is Success-shaped
or Failure-shaped — never malformed. -/
theorem c2_weather_one_entry_per_city (cities : List String) (fetch : String → FetchOutcome) :
    (∀ c ∈ cities,
        dlookup c (get_weather_data cities fetch) = some (weatherForCity (fetch c))
        ∧ countKey c (get_weather_data cities fetch) = 1)
    ∧ (∀ p ∈ get_weather_data cities fetch, p.1 ∈ cities ∧ weatherRecShaped p.2 = true) := by
  have hnd : NodupKeys (get_weather_data cities fetch) :=
    weatherLoop_nodup fetch cities [] (by simp [NodupKeys])
  constructor
  · intro c hc
    have hl : dlookup c (get_weather_data cities fetch) = some (weatherForCity (fetch c)) :=
      weatherLoop_dlookup_mem fetch cities [] c hc
    refine ⟨hl, ?_⟩
    rw [countKey_of_nodup c _ hnd, hl]
    rfl
  · intro p hp
    rcases weatherLoop_mem fetch cities [] p hp with h | h
    · exact absurd h (List.not_mem_nil p)
    · refine ⟨h.1, ?_⟩
      rw [h.2]
      exact weatherForCity_shaped (fetch p.1)

/-- Witness for C2: the configured `CITIES` list under the stub provider;
Paris is present exactly once. -/
theorem c2_witness :
    dlookup "Paris" (get_weather_data CITIES parisStub)
      = some (weatherForCity (parisStub "Paris"))
    ∧ countKey "Paris" (get_weather_data CITIES parisStub) = 1 :=
  (c2_weather_one_entry_per_city CITIES parisStub).1 "Paris" (by decide)

/-- Claim C3: for every city whose HTTP call yields a success-range status
and a body from which temperature, description and icon extract, the
stored entry is the Success record built from those body fields. -/
theorem c3_weather_success_fields (cities : List String) (fetch : String → FetchOutcome)
    (city : String) (s : Nat) (b : Except String PyVal) (t d i : PyVal)
    (hmem : city ∈ cities) (hf : fetch city = .resp s b) (hs : str2xx s = true)
    (hx : extractWeather b = .ok (t, d, i)) :
    dlookup city (get_weather_data cities fetch)
      = some (.obj [("temp", t), ("description", d), ("icon", i)]) := by
  have hl : dlookup city (get_weather_data cities fetch) = some (weatherForCity (fetch city)) :=
    weatherLoop_dlookup_mem fetch cities [] city hmem
  rw [hl, hf]
  simp [weatherForCity, hs, hx]

/-- Witness for C3: the round-trip scenario — a stub provider returning
temp 21.5, description "clear sky", icon "01d" for Paris makes the
briefing's Paris entry that Success record. -/
theorem c3_witness :
    dlookup "Paris" (get_weather_data CITIES parisStub)
      = some (.obj [("temp", .num (21.5 : Rat)), ("description", .str "clear sky"),
                    ("icon", .str "01d")]) :=
  c3_weather_success_fields CITIES parisStub "Paris" 200 _ _ _ _ (by decide) rfl (by decide) rfl

/-- Claim C4: per city, a non-success status stores a Failure record whose
message embeds the numeric status code; an exception of the call stores a
Failure record embedding the error text; an extraction failure after a
success status stores a Failure record embedding that error text; and no
city's failure removes any other configured city's entry. -/
theorem c4_weather_failures_isolated (cities : List String) (fetch : String → FetchOutcome)
    (city : String) (hmem : city ∈ cities) :
    (∀ s b, fetch city = .resp s b → str2xx s = false →
        dlookup city (get_weather_data cities fetch)
          = some (.obj [("error", .str ("Could not retrieve weather: " ++ toString s))])
        ∧ strContains ("Could not retrieve weather: " ++ toString s) (toString s) = true)
    ∧ (∀ m, fetch city = .exn m →
        dlookup city (get_weather_data cities fetch)
          = some (.obj [("error", .str ("An error occurred: " ++ m))])
        ∧ strContains ("An error occurred: " ++ m) m = true)
    ∧ (∀ s b m, fetch city = .resp s b → str2xx s = true → extractWeather b = .error m →
        dlookup city (get_weather_data cities fetch)
          = some (.obj [("error", .str ("An error occurred: " ++ m))]))
    ∧ (∀ c ∈ cities, (dlookup c (get_weather_data cities fetch)).isSome = true) := by
  have hl : dlookup city (get_weather_data cities fetch) = some (weatherForCity (fetch city)) :=
    weatherLoop_dlookup_mem fetch cities [] city hmem
  refine ⟨?_, ?_, ?_, ?_⟩
  · intro s b hf hs
    rw [hl, hf]
    exact ⟨by simp [weatherForCity, hs], strContains_append _ _⟩
  · intro m hf
    rw [hl, hf]
    exact ⟨rfl, strContains_append _ _⟩
  · intro s b m hf hs hx
    rw [hl, hf]
    simp [weatherForCity, hs, hx]
  · intro c hc
    have h2 : dlookup c (get_weather_data cities fetch) = some (weatherForCity (fetch c)) :=
      weatherLoop_dlookup_mem fetch cities [] c hc
    rw [h2]
    rfl

/-- Witness for C4: Paris gets HTTP 404 and its entry embeds "404", while
New York (whose own extraction fails on an empty body) still has an
entry. -/
theorem c4_witness :
    (dlookup "Paris" (get_weather_data CITIES city404Stub)
        = some (.obj [("error", .str ("Could not retrieve weather: " ++ toString 404))])
      ∧ strContains ("Could not retrieve weather: " ++ toString 404) (toString 404) = true)
    ∧ (dlookup "New York" (get_weather_data CITIES city404Stub)).isSome = true :=
  ⟨(c4_weather_failures_isolated CITIES city404Stub "Paris" (by decide)).1 404 (.ok .nil)
      rfl (by decide),
   (c4_weather_failures_isolated CITIES city404Stub "Paris" (by decide)).2.2.2 "New York"
      (by decide)⟩

/-- Counterexample to C1 as stated: on a 200 response whose body is
`{"articles": 42}` no exception is raised, so `get_news_headlines`
returns the value `42` verbatim — not a sequence of NewsArticle records,
hence not the declared result shape. -/
theorem c1_counterexample :
    get_news_headlines (.resp 200 (.ok (.obj [("articles", PyVal.num 42)]))) = PyVal.num 42
    ∧ newsShaped (PyVal.num 42) = false :=
  ⟨rfl, rfl⟩

/-- Claim C1 (amended): no Source Client ever lets an exception escape
(each is a total function of its HTTP outcome); `get_weather_data`
always stores Success- or Failure-shaped records, `get_word_of_the_day`
always returns a `word`/`definition` record, and `get_news_headlines`
returns the declared shape on every failure path, while on a clean
success it returns the body's `articles` value verbatim (declared-shaped
whenever the endpoint returns a list of records). -/
theorem c1_amended_clients_never_escape :
    (∀ (cities : List String) (fetch : String → FetchOutcome),
        ∀ p ∈ get_weather_data cities fetch, weatherRecShaped p.2 = true)
    ∧ (∀ (key : Option String) (o : FetchOutcome),
        wordShaped (get_word_of_the_day key o) = true)
    ∧ (∀ o : FetchOutcome,
        newsShaped (get_news_headlines o) = true
        ∨ ∃ s b v, o = .resp s b ∧ str2xx s = true ∧ extractNews b = .ok v
            ∧ get_news_headlines o = v) := by
  refine ⟨?_, ?_, ?_⟩
  · intro cities fetch p hp
    rcases weatherLoop_mem fetch cities [] p hp with h | h
    · exact absurd h (List.not_mem_nil p)
    · rw [h.2]
      exact weatherForCity_shaped (fetch p.1)
  · intro key o
    cases hk : pyTruthyOpt key with
    | false => simp [get_word_of_the_day, hk, wordShaped]
    | true =>
        cases o with
        | exn m => simp [get_word_of_the_day, hk, wordShaped]
        | resp s b =>
            cases hs : str2xx s with
            | true =>
                cases hx : extractWord b with
                | ok v =>
                    obtain ⟨w, t⟩ := v
                    simp [get_word_of_the_day, hk, hs, hx, wordShaped]
                | error m => simp [get_word_of_the_day, hk, hs, hx, wordShaped]
            | false => simp [get_word_of_the_day, hk, hs, wordShaped]
  · intro o
    cases o with
    | exn m => exact Or.inl rfl
    | resp s b =>
        cases hs : str2xx s with
        | false =>
            left
            have h1 : get_news_headlines (.resp s b)
                = .arr [.obj [("title", .str "Error fetching news"),
                    ("description", .str ("Could not retrieve news: " ++ toString s))]] := by
              simp [get_news_headlines, hs]
            rw [h1]
            rfl
        | true =>
            cases hx : extractNews b with
            | error m =>
                left
                have h1 : get_news_headlines (.resp s b)
                    = .arr [.obj [("title", .str "Error fetching news"),
                        ("description", .str ("An error occurred: " ++ m))]] := by
                  simp [get_news_headlines, hs, hx]
                rw [h1]
                rfl
            | ok v =>
                right
                exact ⟨s, b, v, rfl, hs, hx, by simp [get_news_headlines, hs, hx]⟩

/-- Witness for the amended C1: a weather record produced by an exception
outcome is Failure-shaped. -/
theorem c1_witness :
    weatherRecShaped (PyVal.obj [("error", PyVal.str "An error occurred: boom")]) = true :=
  c1_amended_clients_never_escape.1 ["Paris"] (fun _ => .exn "boom")
    ("Paris", PyVal.obj [("error", PyVal.str "An error occurred: boom")])
    (List.mem_singleton.mpr rfl)

/-- Claim C5: every failure of the news fetch — exception of the call,
non-success status, or extraction failure after a success status —
yields the one-element sentinel sequence whose single entry has the
fixed title "Error fetching news" and a description embedding the
failure detail. -/
theorem c5_news_failure_sentinel (o : FetchOutcome) :
    (∀ m, o = .exn m →
        get_news_headlines o
          = .arr [.obj [("title", .str "Error fetching news"),
                        ("description", .str ("An error occurred: " ++ m))]]
        ∧ pyLen (get_news_headlines o) = 1
        ∧ strContains ("An error occurred: " ++ m) m = true)
    ∧ (∀ s b, o = .resp s b → str2xx s = false →
        get_news_headlines o
          = .arr [.obj [("title", .str "Error fetching news"),
                        ("description", .str ("Could not retrieve news: " ++ toString s))]]
        ∧ pyLen (get_news_headlines o) = 1
        ∧ strContains ("Could not retrieve news: " ++ toString s) (toString s) = true)
    ∧ (∀ s b m, o = .resp s b → str2xx s = true → extractNews b = .error m →
        get_news_headlines o
          = .arr [.obj [("title", .str "Error fetching news"),
                        ("description", .str ("An error occurred: " ++ m))]]
        ∧ pyLen (get_news_headlines o) = 1) := by
  refine ⟨?_, ?_, ?_⟩
  · rintro m rfl
    exact ⟨rfl, rfl, strContains_append _ _⟩
  · rintro s b rfl hs
    have h1 : get_news_headlines (.resp s b)
        = .arr [.obj [("title", .str "Error fetching news"),
            ("description", .str ("Could not retrieve news: " ++ toString s))]] := by
      simp [get_news_headlines, hs]
    rw [h1]
    exact ⟨rfl, rfl, strContains_append _ _⟩
  · rintro s b m rfl hs hx
    have h1 : get_news_headlines (.resp s b)
        = .arr [.obj [("title", .str "Error fetching news"),
            ("description", .str ("An error occurred: " ++ m))]] := by
      simp [get_news_headlines, hs, hx]
    rw [h1]
    exact ⟨rfl, rfl⟩

/-- Witness for C5: the HTTP-401 scenario — the result is the single
sentinel article and its description contains "401". -/
theorem c5_witness :
    get_news_headlines (.resp 401 (.ok .nil))
      = .arr [.obj [("title", .str "Error fetching news"),
                    ("description", .str ("Could not retrieve news: " ++ toString 401))]]
    ∧ pyLen (get_news_headlines (.resp 401 (.ok .nil))) = 1
    ∧ strContains ("Could not retrieve news: " ++ toString 401) (toString 401) = true :=
  (c5_news_failure_sentinel _).2.1 401 (.ok .nil) rfl (by decide)

/-- Counterexample to C6 as stated: `get_news_headlines` applies no
length bound of its own, so a 200 response whose body carries four
articles produces a sequence of length 4, not at most 3. -/
theorem c6_counterexample :
    ¬ pyLen (get_news_headlines (.resp 200 (.ok (.obj [("articles",
        .arr [.obj [("title", .str "a"), ("description", .str "b")],
              .obj [("title", .str "c"), ("description", .str "d")],
              .obj [("title", .str "e"), ("description", .str "f")],
              .obj [("title", .str "g"), ("description", .str "h")]])])))) ≤ 3 := by
  decide

/-- Claim C6 (amended): on a success response `get_news_headlines`
returns the response's `articles` list verbatim — every article and its
fields preserved, an absent URL included — so its length equals the
number of articles the endpoint returned, and is at most 3 exactly when
the endpoint honors the `pageSize=3` request parameter. -/
theorem c6_amended_news_verbatim (o : FetchOutcome) (s : Nat) (b : Except String PyVal)
    (xs : List PyVal) (ho : o = .resp s b) (hs : str2xx s = true)
    (hx : extractNews b = .ok (.arr xs)) :
    get_news_headlines o = .arr xs
    ∧ pyLen (get_news_headlines o) = xs.length
    ∧ (xs.length ≤ 3 → pyLen (get_news_headlines o) ≤ 3) := by
  subst ho
  have h1 : get_news_headlines (.resp s b) = .arr xs := by
    simp [get_news_headlines, hs, hx]
  rw [h1]
  exact ⟨rfl, rfl, fun h => h⟩

/-- Witness for the amended C6: a stub 200 response with two articles
(the second without a URL) is returned verbatim with length 2 ≤ 3. -/
theorem c6_witness :
    get_news_headlines newsStubOutcome = .arr newsStubArticles
    ∧ pyLen (get_news_headlines newsStubOutcome) = newsStubArticles.length
    ∧ (newsStubArticles.length ≤ 3 → pyLen (get_news_headlines newsStubOutcome) ≤ 3) :=
  c6_amended_news_verbatim newsStubOutcome 200 _ newsStubArticles rfl (by decide) rfl

/-- Claim C7: whenever the word-of-day credential is unset or empty,
`get_word_of_the_day` returns the fixed `N/A` record, and the result is
independent of the HTTP outcome — the fetch is never consulted. -/
theorem c7_no_credential_shortcut (key : Option String) (o o' : FetchOutcome)
    (h : pyTruthyOpt key = false) :
    get_word_of_the_day key o
      = .obj [("word", .str "N/A"), ("definition", .str "WORDNIK_API_KEY not set.")]
    ∧ get_word_of_the_day key o = get_word_of_the_day key o' := by
  have h1 : ∀ u, get_word_of_the_day key u
      = .obj [("word", .str "N/A"), ("definition", .str "WORDNIK_API_KEY not set.")] := by
    intro u
    simp [get_word_of_the_day, h]
  exact ⟨h1 o, (h1 o).trans (h1 o').symm⟩

/-- Witness for C7: the unset credential with two different outcomes. -/
theorem c7_witness :
    get_word_of_the_day none (.exn "boom")
      = .obj [("word", .str "N/A"), ("definition", .str "WORDNIK_API_KEY not set.")]
    ∧ get_word_of_the_day none (.exn "boom")
      = get_word_of_the_day none (.resp 200 (.ok .nil)) :=
  c7_no_credential_shortcut none (.exn "boom") (.resp 200 (.ok .nil)) rfl

/-- Claim C8: with the credential configured, every failing word-of-day
fetch — exception, non-success status, or extraction failure — returns a
record with word exactly "Error" and a definition embedding the failure
detail (status code for an HTTP failure, error text otherwise). -/
theorem c8_word_failure_record (key : Option String) (o : FetchOutcome)
    (hk : pyTruthyOpt key = true) :
    (∀ m, o = .exn m →
        get_word_of_the_day key o
          = .obj [("word", .str "Error"), ("definition", .str ("An error occurred: " ++ m))]
        ∧ strContains ("An error occurred: " ++ m) m = true)
    ∧ (∀ s b, o = .resp s b → str2xx s = false →
        get_word_of_the_day key o
          = .obj [("word", .str "Error"),
                  ("definition", .str ("Could not retrieve word of the day: " ++ toString s))]
        ∧ strContains ("Could not retrieve word of the day: " ++ toString s) (toString s)
            = true)
    ∧ (∀ s b m, o = .resp s b → str2xx s = true → extractWord b = .error m →
        get_word_of_the_day key o
          = .obj [("word", .str "Error"),
                  ("definition", .str ("An error occurred: " ++ m))]) := by
  refine ⟨?_, ?_, ?_⟩
  · rintro m rfl
    exact ⟨by simp [get_word_of_the_day, hk], strContains_append _ _⟩
  · rintro s b rfl hs
    exact ⟨by simp [get_word_of_the_day, hk, hs], strContains_append _ _⟩
  · rintro s b m rfl hs hx
    simp [get_word_of_the_day, hk, hs, hx]

/-- Witness for C8: a configured credential and an HTTP 500 produce the
Error record embedding "500". -/
theorem c8_witness :
    get_word_of_the_day (some "k") (.resp 500 (.ok .nil))
      = .obj [("word", .str "Error"),
              ("definition", .str ("Could not retrieve word of the day: " ++ toString 500))]
    ∧ strContains ("Could not retrieve word of the day: " ++ toString 500) (toString 500)
        = true :=
  (c8_word_failure_record (some "k") _ rfl).2.1 500 (.ok .nil) rfl (by decide)

/-- Claim C9: if the sender email, sender password, or recipient is empty
or unset, `send_email` prints exactly the skip notice and returns
normally, and its behaviour is independent of the SMTP outcome — no
network call is consulted. -/
theorem c9_skip_delivery (sender password receiver : Option String)
    (smtp smtp' : SmtpOutcome)
    (h : (pyTruthyOpt sender && pyTruthyOpt password && pyTruthyOpt receiver) = false) :
    send_email sender password receiver smtp
      = ["Email credentials not set. Skipping email delivery."]
    ∧ send_email sender password receiver smtp = send_email sender password receiver smtp' := by
  have h1 : ∀ u, send_email sender password receiver u
      = ["Email credentials not set. Skipping email delivery."] := by
    intro u
    simp [send_email, h]
  exact ⟨h1 smtp, (h1 smtp).trans (h1 smtp').symm⟩

/-- Witness for C9: an unset sender with the compiled-in recipient skips
delivery under both a working and a failing SMTP session. -/
theorem c9_witness :
    send_email none (some "pw") (some RECEIVER_EMAIL) .sent
      = ["Email credentials not set. Skipping email delivery."]
    ∧ send_email none (some "pw") (some RECEIVER_EMAIL) .sent
      = send_email none (some "pw") (some RECEIVER_EMAIL) .authFailure :=
  c9_skip_delivery none (some "pw") (some RECEIVER_EMAIL) .sent .authFailure rfl

/-- Counterexample to C10 as stated: two briefings satisfying the claim's
hypotheses on which `create_email_body` raises.  A word record whose
`word` field is the number 5 (a record, as the claim requires) makes
`word_of_the_day.get("word", "N/A").title()` raise `AttributeError`, and
a weather record carrying the keys temp/description/icon with a numeric
description makes `data["description"].title()` raise. -/
theorem c10_counterexample :
    (isObjB (PyVal.obj [("word", PyVal.num 5)]) = true
      ∧ exOk (create_email_body "Monday" (PyVal.obj []) (PyVal.arr [])
          (PyVal.obj [("word", PyVal.num 5)])) = false)
    ∧ (weatherRecShaped (PyVal.obj [("temp", PyVal.num 1), ("description", PyVal.num 2),
          ("icon", PyVal.str "01d")]) = true
      ∧ exOk (create_email_body "Monday"
          (PyVal.obj [("Paris", PyVal.obj [("temp", PyVal.num 1),
            ("description", PyVal.num 2), ("icon", PyVal.str "01d")])])
          (PyVal.arr []) (PyVal.obj [])) = false) :=
  ⟨⟨rfl, rfl⟩, ⟨rfl, rfl⟩⟩

/-- Claim C10 (amended): `create_email_body` is total over every briefing
whose weather records are Failure-shaped (the `error` key present) or
Success-shaped with the data-model field types (numeric temperature,
string description, string icon), whose news entries are records, and
whose word entry is a record whose `word` field, when present, is a
string; it discriminates a weather record solely by the presence of the
`error` key, and substitutes the defaults "#", "N/A" and "No description
available." for an article's missing url, title and description, and
"N/A" for a missing word or definition. -/
theorem c10_amended_renderer_total (dateStr : String) (wfs : List (String × PyVal))
    (narts : List PyVal) (wod : PyVal)
    (hw : ∀ p ∈ wfs, weatherRecTyped p.2 = true)
    (hn : ∀ a ∈ narts, isObjB a = true)
    (hwod : wordTyped wod = true) :
    exOk (create_email_body dateStr (.obj wfs) (.arr narts) wod) = true
    ∧ (∀ city fs v, dlookup "error" fs = some v →
        get_weather_html city (.obj fs) = .ok (weatherErrHtml city (pyStr v)))
    ∧ get_news_html (.obj [])
        = .ok (newsItemHtml "#" "N/A" "No description available.")
    ∧ get_news_html (.obj [])
        = get_news_html (.obj [("url", .str "#"), ("title", .str "N/A"),
            ("description", .str "No description available.")])
    ∧ (∀ (d : String) (w n : PyVal),
        create_email_body d w n (.obj [])
          = create_email_body d w n
              (.obj [("word", .str "N/A"), ("definition", .str "N/A")])) :=
  ⟨create_email_body_ok dateStr wfs narts wod hw hn hwod,
   fun city fs v hv => get_weather_html_err city fs v hv,
   rfl,
   rfl,
   fun d w n => create_email_body_word_default d w n⟩

/-- Witness for the amended C10: a concrete briefing with one Failure and
one Success weather record, an empty and a partial article, and an empty
word record renders without error. -/
theorem c10_witness :
    exOk (create_email_body "Monday"
      (.obj [("Paris", .obj [("error", .str "boom")]),
             ("Lyon", .obj [("temp", .num 3), ("description", .str "fog"),
               ("icon", .str "09d")])])
      (.arr [.obj [], .obj [("title", .str "T"), ("url", .str "u")]])
      (.obj [])) = true :=
  (c10_amended_renderer_total "Monday"
    [("Paris", .obj [("error", .str "boom")]),
     ("Lyon", .obj [("temp", .num 3), ("description", .str "fog"), ("icon", .str "09d")])]
    [.obj [], .obj [("title", .str "T"), ("url", .str "u")]]
    (.obj []) (by decide) (by decide) (by decide)).1

end DailyBriefing
